import Mathlib

/-!
Verification development for the pipecat voice-agent demo
(src/p2p-webrtc/voice-agent/server.py and bot.py).

The development shallowly embeds the session registry and the Tavus
avatar-conversation lifecycle: the TavusIntegration HTTP-client state and
its create/status/end operations (bot.py), the module-level registries
and the HTTP handlers that mutate them (server.py), and the background
run_bot task that attaches a created conversation to the registry.

Network effects are passed in explicitly as an HttpResult oracle; the
observable effects of each operation (HTTP DELETE calls issued, error
diagnostics logged, registry mutations) are returned as data so that
theorems can count them.
-/

/-- Raw payload parsed from a Tavus API JSON response (response.json()
in bot.py).  The two fields the code reads are conversation_id and
conversation_url; everything else is kept opaque in the raw field. -/
structure ConvData where
  conversation_id : Option String
  conversation_url : Option String
  raw : String
deriving DecidableEq, Repr

/-- Outcome of one aiohttp request: either a response with an HTTP status
code, a parsed JSON body and a text body, or a raised transport
exception (timeout, DNS failure, connection reset). -/
inductive HttpResult where
  | resp (status : Nat) (json : ConvData) (text : String)
  | exn (msg : String)
deriving DecidableEq, Repr

/-- State of one TavusIntegration instance (bot.py lines 111 to 121).
Python None-able strings become Option String. -/
structure TavusIntegration where
  api_key : String
  replica_id : Option String
  persona_id : Option String
  conversation_id : Option String
  conversation_url : Option String
  conversation_data : Option ConvData
  company_context : Option String
  conversation_type : String
deriving DecidableEq, Repr

/-- Error diagnostics that create_conversation writes to the log on its
failure paths (bot.py lines 240, 267 to 269, 272). -/
inductive CreateError where
  | noIdentity
  | httpError (status : Nat) (body : String)
  | netException (msg : String)
deriving DecidableEq, Repr

/-- Observable outcome of TavusIntegration.create_conversation: the
Python return value (the parsed payload, or None), the object state
afterwards, the number of HTTP requests that were sent, and the error
diagnostics logged on failure. -/
structure CreateOutcome where
  result : Option ConvData
  state : TavusIntegration
  requests : Nat
  errorLog : Option CreateError
deriving DecidableEq, Repr

/-- TavusIntegration.create_conversation (bot.py lines 127 to 273).
The conversational-context and greeting strings built from
company_context only populate the request payload and are not read back
by any caller, so they are not modelled.  The identity check mirrors
the code: persona_id is preferred, replica_id is the fallback, and if
neither is set the method logs an error and returns None before any
request is sent.  On a 200 or 201 response the parsed payload is
returned and conversation_id and conversation_url are recorded on the
object; on any other status the method logs the status and body and
returns None; on a transport exception it logs and returns None.  The
method never retries and never raises. -/
def create_conversation (t : TavusIntegration) (net : HttpResult) : CreateOutcome :=
  if t.persona_id = none ∧ t.replica_id = none then
    { result := none, state := t, requests := 0, errorLog := some CreateError.noIdentity }
  else
    match net with
    | HttpResult.resp status json text =>
        if status = 200 ∨ status = 201 then
          { result := some json
            state := { t with conversation_id := json.conversation_id
                              conversation_url := json.conversation_url }
            requests := 1
            errorLog := none }
        else
          { result := none, state := t, requests := 1
            errorLog := some (CreateError.httpError status text) }
    | HttpResult.exn msg =>
        { result := none, state := t, requests := 1
          errorLog := some (CreateError.netException msg) }

/-- Observable outcome of TavusIntegration.end_conversation: the object
state afterwards and the list of conversation ids for which an HTTP
DELETE request was issued. -/
structure EndOutcome where
  state : TavusIntegration
  deletes : List String
deriving DecidableEq, Repr

/-- TavusIntegration.end_conversation (bot.py lines 299 to 319).  If no
conversation_id is set the method returns immediately without any
network call.  Otherwise one DELETE request is issued for the stored id
and, whatever the response (success, error status, or a raised
exception caught by the except clause), the finally block clears
conversation_id.  The method never raises; the response only affects
logging, which is not modelled. -/
def end_conversation (t : TavusIntegration) (net : HttpResult) : EndOutcome :=
  match t.conversation_id with
  | none => { state := t, deletes := [] }
  | some cid =>
      match net with
      | HttpResult.resp _ _ _ =>
          { state := { t with conversation_id := none }, deletes := [cid] }
      | HttpResult.exn _ =>
          { state := { t with conversation_id := none }, deletes := [cid] }

/-- Result of TavusIntegration.get_conversation_status (bot.py lines 275
to 295): the no_conversation sentinel when no id is set, the response
body on HTTP 200, and the error status dict otherwise. -/
inductive StatusResp where
  | noConversation
  | payload (raw : String)
  | errorStatus
deriving DecidableEq, Repr

/-- TavusIntegration.get_conversation_status (bot.py lines 275 to 295). -/
def get_conversation_status (t : TavusIntegration) (net : HttpResult) : StatusResp :=
  match t.conversation_id with
  | none => StatusResp.noConversation
  | some _ =>
      match net with
      | HttpResult.resp status _ text =>
          if status = 200 then StatusResp.payload text else StatusResp.errorStatus
      | HttpResult.exn _ => StatusResp.errorStatus

/-- One SmallWebRTCConnection as seen by the server: its transport
assigned pc_id (stable across renegotiation) and a token distinguishing
the Python object identity. -/
structure Conn where
  pc_id : String
  token : Nat
deriving DecidableEq, Repr

/-- The pcs_map module-level dict of server.py (line 38), as a partial
map from pc_id to connection.  Its iteration order is never observed by
the code (only .values() at shutdown), so a function map suffices. -/
abbrev PcsMap : Type := String → Option Conn

/-- The tavus_integrations module-level dict of server.py (line 41).
Its insertion order is observed by /api/tavus/latest, so it is embedded
as an association list in insertion order with unique keys, matching
CPython dict semantics. -/
abbrev Registry : Type := List (String × TavusIntegration)

/-- Dict lookup on the integrations registry. -/
def lookupR : Registry → String → Option TavusIntegration
  | [], _ => none
  | p :: r, k => if p.1 = k then some p.2 else lookupR r k

/-- Dict write on the integrations registry: replaces in place when the
key is present, appends otherwise (CPython insertion-order rules). -/
def insertR : Registry → String → TavusIntegration → Registry
  | [], k, v => [(k, v)]
  | p :: r, k, v => if p.1 = k then (k, v) :: r else p :: insertR r k v

/-- Dict deletion on the integrations registry. -/
def eraseR : Registry → String → Registry
  | [], _ => []
  | p :: r, k => if p.1 = k then eraseR r k else p :: eraseR r k

/-- Last inserted entry of the registry: list(d.keys())[-1] paired with
its value, as read by /api/tavus/latest. -/
def lastEntry : Registry → Option (String × TavusIntegration)
  | [] => none
  | [p] => some p
  | _ :: p :: r => lastEntry (p :: r)

/-- The mutable module-level state of server.py: pcs_map,
tavus_integrations, and latest_tavus_conversation (lines 37 to 44). -/
structure ServerState where
  pcs_map : PcsMap
  tavus_integrations : Registry
  latest_tavus_conversation : Option ConvData

/-- Environment configuration read by server.py: TAVUS_API_KEY,
TAVUS_REPLICA_ID, TAVUS_PERSONA_ID. -/
structure Env where
  tavus_api_key : String
  tavus_replica_id : Option String
  tavus_persona_id : Option String
deriving DecidableEq, Repr

/-- TavusIntegration constructed from the environment, with the
constructor defaults of bot.py lines 112 to 121. -/
def mkIntegration (env : Env) : TavusIntegration :=
  { api_key := env.tavus_api_key
    replica_id := env.tavus_replica_id
    persona_id := env.tavus_persona_id
    conversation_id := none
    conversation_url := none
    conversation_data := none
    company_context := none
    conversation_type := "general" }

/-- The closed event handler handle_disconnected registered inside the
/api/offer handler (server.py lines 66 to 74): pops the connection from
pcs_map, and if a Tavus integration is registered for the pc_id, awaits
its end_conversation and deletes the registry entry.  Returns the new
server state and the DELETE calls issued. -/
def handle_disconnected (s : ServerState) (pc : String) (net : HttpResult) :
    ServerState × List String :=
  let pcs2 : PcsMap := fun k => if k = pc then none else s.pcs_map k
  match lookupR s.tavus_integrations pc with
  | none => ({ s with pcs_map := pcs2 }, [])
  | some t =>
      let e := end_conversation t net
      ({ s with pcs_map := pcs2
                tavus_integrations := eraseR s.tavus_integrations pc },
       e.deletes)

/-- A background task scheduled by an HTTP handler via
background_tasks.add_task. -/
inductive BgTask where
  | runBot (conn : Conn) (tavus : TavusIntegration)
deriving DecidableEq, Repr

/-- The new-connection branch of the /api/offer handler (server.py
lines 62 to 91): initializes a fresh connection, builds a fresh
TavusIntegration from the environment, schedules run_bot as a
background task, and stores the connection under the answer pc_id. -/
def offerNewPath (env : Env) (s : ServerState) (fresh : Conn) :
    ServerState × String × List BgTask :=
  let tavus := mkIntegration env
  let apc := fresh.pc_id
  ({ s with pcs_map := fun k => if k = apc then some fresh else s.pcs_map k },
   apc,
   [BgTask.runBot fresh tavus])

/-- The /api/offer handler (server.py lines 54 to 91).  When the request
carries a pc_id that is present in pcs_map, the existing connection is
renegotiated (a transport operation that does not change the server
maps or the pc_id, which is stable across renegotiation), its answer is
returned, and the connection is stored back under the answer pc_id.
Otherwise the new-connection path runs.  The result is the new server
state, the answer pc_id, and the background tasks scheduled. -/
def offer (env : Env) (s : ServerState) (req_pc : Option String) (fresh : Conn) :
    ServerState × String × List BgTask :=
  match req_pc with
  | some pc =>
      match s.pcs_map pc with
      | some conn =>
          let apc := conn.pc_id
          ({ s with pcs_map := fun k => if k = apc then some conn else s.pcs_map k },
           apc, [])
      | none => offerNewPath env s fresh
  | none => offerNewPath env s fresh

/-- Outcome of the create-and-register phase of run_bot (bot.py lines
551 to 582): the integration state after create_conversation, the value
of the run_bot local variable conversation_id as captured by the event
handler closures (none means the variable was never assigned because
the create failed), and whether the failure warning was logged. -/
structure RunBotOutcome where
  tavus : TavusIntegration
  conversation_id_var : Option (Option String)
  warned : Bool
deriving DecidableEq, Repr

/-- The create-and-register phase of run_bot (bot.py lines 551 to 582),
together with its writes into the server module state (bot.py lines 573
to 580).  On a successful create the payload is stored on the
integration, the local conversation_id is bound, and the integration is
registered in server.tavus_integrations under the connection pc_id with
latest_tavus_conversation updated; on failure a warning is logged,
nothing is registered, and the local conversation_id is never bound. -/
def run_bot_effects (s : ServerState) (pc : String) (t0 : TavusIntegration)
    (net : HttpResult) : ServerState × RunBotOutcome :=
  let c := create_conversation t0 net
  match c.result with
  | some data =>
      let t2 := { c.state with conversation_data := some data }
      ({ s with tavus_integrations := insertR s.tavus_integrations pc t2
                latest_tavus_conversation := some data },
       { tavus := t2, conversation_id_var := some data.conversation_id, warned := false })
  | none =>
      (s, { tavus := c.state, conversation_id_var := none, warned := true })

/-- The on_client_connected handler registered by run_bot (bot.py lines
635 to 648).  It reads the run_bot local conversation_id, which is a
free variable of the closure: when the create failed that variable was
never assigned, and the access raises NameError.  Otherwise, when an id
is set the conversation status is queried and frames are queued. -/
def run_bot_on_client_connected (conversation_id_var : Option (Option String))
    (t : TavusIntegration) (net : HttpResult) : Except String (Option StatusResp) :=
  match conversation_id_var with
  | none => Except.error "NameError: free variable conversation_id referenced before assignment"
  | some none => Except.ok none
  | some (some _) => Except.ok (some (get_conversation_status t net))

/-- The on_client_disconnected handler registered by run_bot (bot.py
lines 650 to 656).  It reads the same free variable conversation_id:
when the create failed the access raises NameError; when the variable
holds None the end_conversation call is skipped; otherwise
end_conversation runs. -/
def run_bot_on_client_disconnected (conversation_id_var : Option (Option String))
    (t : TavusIntegration) (net : HttpResult) : Except String EndOutcome :=
  match conversation_id_var with
  | none => Except.error "NameError: free variable conversation_id referenced before assignment"
  | some none => Except.ok { state := t, deletes := [] }
  | some (some _) => Except.ok (end_conversation t net)

/-- Response of the POST /api/tavus/end handler: the success JSON, the
404 error, or an unhandled KeyError escaping the handler (which the
framework surfaces as a 500, not a 404). -/
inductive EndResp where
  | ended (pc : String)
  | notFound
  | keyError
deriving DecidableEq, Repr

/-- Progress of one execution of the POST /api/tavus/end handler
(server.py lines 375 to 385).  The handler has one suspension point:
the await of tavus.end_conversation between the membership check and
the del statement. -/
inductive EndPhase where
  | start
  | awaited
  | done (r : EndResp)
deriving DecidableEq, Repr

/-- One atomic step of the POST /api/tavus/end handler over the shared
tavus_integrations registry.  From start: the membership check; when the
id is absent the handler raises HTTPException 404, otherwise it enters
the await of end_conversation, during which the DELETE call is issued
and the shared integration object's conversation_id is cleared (the
registry entry aliases that object, so the write goes through).  After
the await: the del statement, which removes the entry when it is still
present and raises KeyError when a concurrent execution already removed
it; on success the handler returns the ended response. -/
def stepEnd (pc : String) (net : HttpResult) :
    EndPhase × Registry → EndPhase × Registry × List String
  | (EndPhase.start, r) =>
      match lookupR r pc with
      | none => (EndPhase.done EndResp.notFound, r, [])
      | some t =>
          let e := end_conversation t net
          (EndPhase.awaited, insertR r pc e.state, e.deletes)
  | (EndPhase.awaited, r) =>
      match lookupR r pc with
      | some _ => (EndPhase.done (EndResp.ended pc), eraseR r pc, [])
      | none => (EndPhase.done EndResp.keyError, r, [])
  | (EndPhase.done resp, r) => (EndPhase.done resp, r, [])

/-- Joint state of two executions of the POST /api/tavus/end handler
for the same pc_id, interleaved on the cooperative scheduler over the
shared registry, with the DELETE calls issued so far. -/
structure TwoEnd where
  a : EndPhase
  b : EndPhase
  reg : Registry
  deletes : List String
deriving DecidableEq, Repr

/-- Run one scheduler step: true advances execution A, false advances
execution B. -/
def stepTwo (pc : String) (netA netB : HttpResult) (s : TwoEnd) (who : Bool) : TwoEnd :=
  if who then
    let (a2, r2, d) := stepEnd pc netA (s.a, s.reg)
    { s with a := a2, reg := r2, deletes := s.deletes ++ d }
  else
    let (b2, r2, d) := stepEnd pc netB (s.b, s.reg)
    { s with b := b2, reg := r2, deletes := s.deletes ++ d }

/-- Run two executions of the end handler for the same pc_id under a
given schedule, from a given initial registry. -/
def runTwo (pc : String) (netA netB : HttpResult) (sched : List Bool) (r0 : Registry) : TwoEnd :=
  sched.foldl (stepTwo pc netA netB)
    { a := EndPhase.start, b := EndPhase.start, reg := r0, deletes := [] }

/-- The POST /api/tavus/end handler run to completion without
interleaving (both atomic steps back to back), over the full server
state.  The handler reads and writes only tavus_integrations; pcs_map
and latest_tavus_conversation are untouched. -/
def end_tavus_conversation (s : ServerState) (pc : String) (net : HttpResult) :
    ServerState × EndResp × List String :=
  let (ph1, r1, d1) := stepEnd pc net (EndPhase.start, s.tavus_integrations)
  let (ph2, r2, d2) := stepEnd pc net (ph1, r1)
  match ph2 with
  | EndPhase.done resp => ({ s with tavus_integrations := r2 }, resp, d1 ++ d2)
  | _ => ({ s with tavus_integrations := r2 }, EndResp.keyError, d1 ++ d2)

/-- Response body of GET /api/tavus/latest on success: the stored
conversation_data merged with the pc_id when present, or the fallback
built from the integration fields with status active. -/
inductive LatestResp where
  | fromData (pc : String) (d : ConvData)
  | fromFields (pc : String) (cid curl : Option String)
deriving DecidableEq, Repr

/-- Success body of GET /api/tavus/latest for one registry entry
(server.py lines 345 to 356). -/
def latestBody (pc : String) (t : TavusIntegration) : LatestResp :=
  match t.conversation_data with
  | some d => LatestResp.fromData pc d
  | none => LatestResp.fromFields pc t.conversation_id t.conversation_url

/-- The GET /api/tavus/latest handler (server.py lines 329 to 356):
404 when tavus_integrations is empty, otherwise the data of the last
inserted registry entry.  none encodes the 404 response. -/
def get_latest_tavus_conversation (r : Registry) : Option LatestResp :=
  match lastEntry r with
  | none => none
  | some (pc, t) => some (latestBody pc t)

/-- The POST /api/create-tavus-conversation handler (server.py lines
272 to 307): builds a fresh TavusIntegration from the environment, sets
its company_context, awaits create_conversation, and on success stores
the payload in latest_tavus_conversation and returns it; on failure it
returns a 500 (encoded as none).  It never touches pcs_map or
tavus_integrations.  The legacy POST /api/tavus/create-conversation
handler (lines 309 to 326) is the same without company_context. -/
def create_tavus_conversation (env : Env) (company : Option String)
    (s : ServerState) (net : HttpResult) : ServerState × Option ConvData :=
  let tavus := { mkIntegration env with company_context := company }
  let c := create_conversation tavus net
  match c.result with
  | some d => ({ s with latest_tavus_conversation := some d }, some d)
  | none => (s, none)

/-- One row of the GET /api/tavus/conversations response. -/
structure ActiveConv where
  pc_id : String
  conversation_id : Option String
  status : StatusResp
deriving DecidableEq, Repr

/-- The GET /api/tavus/conversations handler (server.py lines 359 to
372): one row per tavus_integrations entry, with the status obtained
from a per-entry status query whose network outcome is given by the
nets oracle. -/
def get_active_conversations (r : Registry) (nets : String → HttpResult) :
    List ActiveConv :=
  r.map (fun p =>
    { pc_id := p.1
      conversation_id := p.2.conversation_id
      status := get_conversation_status p.2 (nets p.1) })

/-- An externally observable event driving the server state machine:
an offer creating a new connection (whose background run_bot task runs
to completion with the given create outcome), an offer reusing an
existing connection, a standalone conversation-creation request, an
explicit end request, and a transport closed event. -/
inductive Event where
  | offerNew (fresh : Conn) (net : HttpResult)
  | offerReuse (pc : String)
  | standaloneCreate (company : Option String) (net : HttpResult)
  | endReq (pc : String) (net : HttpResult)
  | closedEvt (pc : String) (net : HttpResult)
deriving DecidableEq, Repr

/-- Transition of the server state on one event, returning the DELETE
calls issued while handling it. -/
def stepEvent (env : Env) (s : ServerState) : Event → ServerState × List String
  | Event.offerNew fresh net =>
      let s1 := { s with pcs_map := fun k => if k = fresh.pc_id then some fresh else s.pcs_map k }
      let (s2, _o) := run_bot_effects s1 fresh.pc_id (mkIntegration env) net
      (s2, [])
  | Event.offerReuse _pc => (s, [])
  | Event.standaloneCreate company net =>
      ((create_tavus_conversation env company s net).1, [])
  | Event.endReq pc net =>
      let e := end_tavus_conversation s pc net
      (e.1, e.2.2)
  | Event.closedEvt pc net => handle_disconnected s pc net

/-- Run a list of events, accumulating all DELETE calls issued. -/
def runTrace (env : Env) (s : ServerState) : List Event → ServerState × List String
  | [] => (s, [])
  | e :: es =>
      ((runTrace env (stepEvent env s e).1 es).1,
       (stepEvent env s e).2 ++ (runTrace env (stepEvent env s e).1 es).2)

/-- The conversation id recorded by a successful create against the
given network outcome: some only for a 200 or 201 response, in which
case it is the conversation_id field of the parsed payload. -/
def createdCid (net : HttpResult) : Option String :=
  match net with
  | HttpResult.resp status json _ =>
      if status = 200 ∨ status = 201 then json.conversation_id else none
  | HttpResult.exn _ => none

/-- No entry of the registry holds the conversation id c. -/
def noRegEntry (c : String) (r : Registry) : Prop :=
  ∀ p ∈ r, p.2.conversation_id ≠ some c

/-- The event cannot register the conversation id c: an offerNew whose
create would record c is excluded (conversation ids issued by the
provider are fresh), every other event registers nothing. -/
def freshFor (c : String) : Event → Prop
  | Event.offerNew _ net => createdCid net ≠ some c
  | _ => True

theorem lookupR_insertR (r : Registry) (k j : String) (v : TavusIntegration) :
    lookupR (insertR r k v) j = if j = k then some v else lookupR r j := by
  induction r with
  | nil =>
      by_cases h : j = k
      · simp [insertR, lookupR, h]
      · have hkj : ¬ k = j := fun hh => h hh.symm
        simp [insertR, lookupR, h, hkj]
  | cons p r ih =>
      by_cases h1 : p.1 = k
      · by_cases h2 : j = k
        · simp [insertR, lookupR, h1, h2]
        · have hkj : ¬ k = j := fun hh => h2 hh.symm
          simp [insertR, lookupR, h1, h2, hkj]
      · by_cases h2 : p.1 = j
        · have hjk : ¬ j = k := fun hh => h1 (h2.trans hh)
          simp [insertR, lookupR, h1, h2, hjk]
        · simp [insertR, lookupR, h1, h2, ih]

theorem lookupR_eraseR (r : Registry) (k j : String) :
    lookupR (eraseR r k) j = if j = k then none else lookupR r j := by
  induction r with
  | nil => simp [eraseR, lookupR]
  | cons p r ih =>
      by_cases h1 : p.1 = k
      · by_cases h2 : j = k
        · subst h2
          simp [eraseR, lookupR, h1, ih]
        · have hpj : ¬ p.1 = j := fun hh => h2 ((hh.symm.trans h1))
          have hkj : ¬ k = j := fun hh => h2 hh.symm
          simp [eraseR, lookupR, h1, h2, hpj, hkj, ih]
      · by_cases h2 : p.1 = j
        · have hjk : ¬ j = k := fun hh => h1 (h2.trans hh)
          simp [eraseR, lookupR, h1, h2, hjk]
        · simp [eraseR, lookupR, h1, h2, ih]

theorem mem_insertR (r : Registry) (k : String) (v : TavusIntegration)
    (p : String × TavusIntegration) (h : p ∈ insertR r k v) : p = (k, v) ∨ p ∈ r := by
  induction r with
  | nil =>
      simp [insertR] at h
      exact Or.inl h
  | cons q r ih =>
      by_cases h1 : q.1 = k
      · simp only [insertR, if_pos h1, List.mem_cons] at h
        rcases h with h | h
        · exact Or.inl h
        · exact Or.inr (List.mem_cons_of_mem q h)
      · simp only [insertR, if_neg h1, List.mem_cons] at h
        rcases h with h | h
        · exact Or.inr (h ▸ List.mem_cons_self q r)
        · rcases ih h with h2 | h2
          · exact Or.inl h2
          · exact Or.inr (List.mem_cons_of_mem q h2)

theorem mem_eraseR (r : Registry) (k : String)
    (p : String × TavusIntegration) (h : p ∈ eraseR r k) : p ∈ r := by
  induction r with
  | nil => simp [eraseR] at h
  | cons q r ih =>
      by_cases h1 : q.1 = k
      · simp only [eraseR, if_pos h1] at h
        exact List.mem_cons_of_mem q (ih h)
      · simp only [eraseR, if_neg h1, List.mem_cons] at h
        rcases h with h | h
        · exact h ▸ List.mem_cons_self q r
        · exact List.mem_cons_of_mem q (ih h)

theorem lookupR_mem (r : Registry) (k : String) (t : TavusIntegration)
    (h : lookupR r k = some t) : (k, t) ∈ r := by
  induction r with
  | nil => simp [lookupR] at h
  | cons p r ih =>
      by_cases h1 : p.1 = k
      · simp only [lookupR, if_pos h1, Option.some.injEq] at h
        have : p = (k, t) := Prod.ext h1 h
        exact this ▸ List.mem_cons_self p r
      · simp only [lookupR, if_neg h1] at h
        exact List.mem_cons_of_mem p (ih h)

theorem lastEntry_eq_none (r : Registry) : lastEntry r = none ↔ r = [] := by
  induction r with
  | nil => simp [lastEntry]
  | cons p r ih =>
      cases r with
      | nil => simp [lastEntry]
      | cons q r => simp [lastEntry, ih]

theorem create_conversation_result_some (t : TavusIntegration) (net : HttpResult)
    (d : ConvData) (h : (create_conversation t net).result = some d) :
    createdCid net = d.conversation_id ∧
    (create_conversation t net).state.conversation_id = d.conversation_id := by
  cases net with
  | resp status json text =>
      by_cases hid : t.persona_id = none ∧ t.replica_id = none
      · simp [create_conversation, hid] at h
      · by_cases hst : status = 200 ∨ status = 201
        · simp [create_conversation, createdCid, hid, hst] at h ⊢
          subst h
          simp
        · simp [create_conversation, hid, hst] at h
  | exn m =>
      by_cases hid : t.persona_id = none ∧ t.replica_id = none
      · simp [create_conversation, hid] at h
      · simp [create_conversation, hid] at h

/-- Sample environment configuration used by concrete instantiations. -/
def sampleEnv : Env :=
  { tavus_api_key := "key", tavus_replica_id := some "rep", tavus_persona_id := none }

/-- A fresh integration as built by the server from sampleEnv. -/
def emptyT : TavusIntegration := mkIntegration sampleEnv

/-- Sample parsed payload of a successful conversation creation. -/
def sampleData : ConvData :=
  { conversation_id := some "conv_123", conversation_url := some "https-join-url"
    raw := "raw-json" }

/-- Sample integration holding an attached conversation. -/
def sampleT : TavusIntegration :=
  { api_key := "key", replica_id := some "rep", persona_id := none
    conversation_id := some "conv_123", conversation_url := some "https-join-url"
    conversation_data := some sampleData, company_context := none
    conversation_type := "general" }

/-- Sample connection object. -/
def sampleConn : Conn := { pc_id := "pc1", token := 0 }

/-- Sample server state holding one session with an attached
conversation. -/
def sampleS : ServerState :=
  { pcs_map := fun k => if k = "pc1" then some sampleConn else none
    tavus_integrations := [("pc1", sampleT)]
    latest_tavus_conversation := none }

/-- A successful network outcome. -/
def netOK : HttpResult := HttpResult.resp 200 sampleData "ok-body"

/-- C1: when the transport fires the closed event for a session whose
registry record has an attached conversation id, exactly one DELETE
call is issued for that id, and afterwards the session id is absent
from both the connection map and the integration map. -/
theorem spec_c1_closed_teardown (s : ServerState) (pc cid : String)
    (t : TavusIntegration) (net : HttpResult)
    (h1 : lookupR s.tavus_integrations pc = some t)
    (h2 : t.conversation_id = some cid) :
    (handle_disconnected s pc net).2 = [cid] ∧
    (handle_disconnected s pc net).1.pcs_map pc = none ∧
    lookupR (handle_disconnected s pc net).1.tavus_integrations pc = none := by
  unfold handle_disconnected
  rw [h1]
  cases net <;> simp [end_conversation, h2, lookupR_eraseR]

theorem spec_c1_closed_teardown_witness :
    (handle_disconnected sampleS "pc1" netOK).2 = ["conv_123"] ∧
    (handle_disconnected sampleS "pc1" netOK).1.pcs_map "pc1" = none ∧
    lookupR (handle_disconnected sampleS "pc1" netOK).1.tavus_integrations "pc1" = none :=
  spec_c1_closed_teardown sampleS "pc1" "conv_123" sampleT netOK (by decide) (by decide)

/-- C2: end_conversation with no conversation id set performs no network
call and returns with the state unchanged; after any end_conversation
call the conversation id is cleared whatever the network outcome was;
hence a second call directly after the first performs no network call
(the function is total, so neither call raises). -/
theorem spec_c2_end_idempotent (t : TavusIntegration) (net net2 : HttpResult) :
    (t.conversation_id = none →
      (end_conversation t net).deletes = [] ∧ (end_conversation t net).state = t) ∧
    (end_conversation t net).state.conversation_id = none ∧
    (end_conversation (end_conversation t net).state net2).deletes = [] := by
  cases hc : t.conversation_id <;> cases net <;> simp [end_conversation, hc]

theorem spec_c2_end_idempotent_witness :
    (end_conversation emptyT netOK).deletes = [] ∧
    (end_conversation sampleT netOK).state.conversation_id = none ∧
    (end_conversation (end_conversation sampleT netOK).state netOK).deletes = [] :=
  ⟨((spec_c2_end_idempotent emptyT netOK netOK).1 (by decide)).1,
   (spec_c2_end_idempotent sampleT netOK netOK).2.1,
   (spec_c2_end_idempotent sampleT netOK netOK).2.2⟩

/-- C5: create_conversation classification, given that at least one of
persona_id and replica_id is configured (so the request is sent).  On a
200 or 201 response the parsed payload is returned and the id and join
URL are recorded on the object with no error logged; on any other
status the return value is None, the status code and response body are
logged as diagnostics, and the object is unchanged; on a transport
exception the return value is None with the exception logged and the
object unchanged.  In every case at most one request is sent (no
retry), and the function is total (no raise escapes). -/
theorem spec_c5_create_classification (t : TavusIntegration) (net : HttpResult)
    (hid : ¬ (t.persona_id = none ∧ t.replica_id = none)) :
    (∀ status json text, net = HttpResult.resp status json text →
      (status = 200 ∨ status = 201) →
        (create_conversation t net).result = some json ∧
        (create_conversation t net).state.conversation_id = json.conversation_id ∧
        (create_conversation t net).state.conversation_url = json.conversation_url ∧
        (create_conversation t net).errorLog = none) ∧
    (∀ status json text, net = HttpResult.resp status json text →
      ¬ (status = 200 ∨ status = 201) →
        (create_conversation t net).result = none ∧
        (create_conversation t net).errorLog = some (CreateError.httpError status text) ∧
        (create_conversation t net).state = t) ∧
    (∀ msg, net = HttpResult.exn msg →
      (create_conversation t net).result = none ∧
      (create_conversation t net).errorLog = some (CreateError.netException msg) ∧
      (create_conversation t net).state = t) ∧
    (create_conversation t net).requests ≤ 1 := by
  refine ⟨?_, ?_, ?_, ?_⟩
  · intro status json text hnet hst
    subst hnet
    simp [create_conversation, hid, hst]
  · intro status json text hnet hst
    subst hnet
    simp [create_conversation, hid, hst]
  · intro msg hnet
    subst hnet
    simp [create_conversation, hid]
  · cases net with
    | resp status json text =>
        by_cases hst : status = 200 ∨ status = 201 <;>
          simp [create_conversation, hid, hst]
    | exn msg => simp [create_conversation, hid]

theorem spec_c5_create_classification_witness :
    ((create_conversation emptyT (HttpResult.resp 201 sampleData "ok")).result = some sampleData ∧
     (create_conversation emptyT (HttpResult.resp 201 sampleData "ok")).state.conversation_id = sampleData.conversation_id ∧
     (create_conversation emptyT (HttpResult.resp 201 sampleData "ok")).state.conversation_url = sampleData.conversation_url ∧
     (create_conversation emptyT (HttpResult.resp 201 sampleData "ok")).errorLog = none) ∧
    ((create_conversation emptyT (HttpResult.resp 429 sampleData "too-many")).result = none ∧
     (create_conversation emptyT (HttpResult.resp 429 sampleData "too-many")).errorLog =
       some (CreateError.httpError 429 "too-many") ∧
     (create_conversation emptyT (HttpResult.resp 429 sampleData "too-many")).state = emptyT) ∧
    ((create_conversation emptyT (HttpResult.exn "timeout")).result = none ∧
     (create_conversation emptyT (HttpResult.exn "timeout")).errorLog =
       some (CreateError.netException "timeout") ∧
     (create_conversation emptyT (HttpResult.exn "timeout")).state = emptyT) :=
  ⟨(spec_c5_create_classification emptyT _ (by decide)).1 201 sampleData "ok" rfl (Or.inr rfl),
   (spec_c5_create_classification emptyT _ (by decide)).2.1 429 sampleData "too-many" rfl (by decide),
   (spec_c5_create_classification emptyT _ (by decide)).2.2.1 "timeout" rfl⟩

/-- Empty server state: no connections, no integrations, no latest
conversation. -/
def emptyS : ServerState :=
  { pcs_map := fun _ => none, tavus_integrations := [], latest_tavus_conversation := none }

/-- A successful create response carrying a different conversation id
and join URL than the ones stored in sampleT. -/
def overwriteNet : HttpResult :=
  HttpResult.resp 200
    { conversation_id := some "conv_b", conversation_url := some "url_b", raw := "raw2" }
    "ok"

/-- C6 counterexample: sampleT already holds conversation id conv_123,
yet a second successful create_conversation call (the only code path
that attaches a resource id, bot.py lines 249 to 252) silently replaces
the stored id and URL with the new values and flags nothing: no error
is raised (the function is total) and nothing is logged on this path. -/
theorem spec_c6_attach_overwrite_counterexample :
    sampleT.conversation_id = some "conv_123" ∧
    (create_conversation sampleT overwriteNet).state.conversation_id = some "conv_b" ∧
    (create_conversation sampleT overwriteNet).state.conversation_url = some "url_b" ∧
    (create_conversation sampleT overwriteNet).errorLog = none := by decide

/-- C6 amended: attaching a second conversation to an integration that
already holds one silently overwrites the stored conversation id and
join URL with the new values; no violation is raised or logged. -/
theorem spec_c6_attach_overwrites (t : TavusIntegration) (status : Nat)
    (json : ConvData) (text : String)
    (hid : ¬ (t.persona_id = none ∧ t.replica_id = none))
    (_hprev : t.conversation_id.isSome)
    (hst : status = 200 ∨ status = 201) :
    (create_conversation t (HttpResult.resp status json text)).state.conversation_id =
      json.conversation_id ∧
    (create_conversation t (HttpResult.resp status json text)).state.conversation_url =
      json.conversation_url ∧
    (create_conversation t (HttpResult.resp status json text)).errorLog = none := by
  simp [create_conversation, hid, hst]

theorem spec_c6_attach_overwrites_witness :
    (create_conversation sampleT overwriteNet).state.conversation_id = some "conv_b" ∧
    (create_conversation sampleT overwriteNet).state.conversation_url = some "url_b" ∧
    (create_conversation sampleT overwriteNet).errorLog = none :=
  spec_c6_attach_overwrites sampleT 200
    { conversation_id := some "conv_b", conversation_url := some "url_b", raw := "raw2" }
    "ok" (by decide) (by decide) (Or.inl rfl)

/-- C7 counterexample: a conversation is created successfully through
POST /api/create-tavus-conversation (the handler returns its payload),
yet GET /api/tavus/latest afterwards returns 404, because the handler
keys on the tavus_integrations registry and the standalone handler
never inserts into it.  So the 404 condition is not, as the claim
states, that no conversation has ever been created. -/
theorem spec_c7_latest_counterexample :
    (create_tavus_conversation sampleEnv (some "Acme") emptyS netOK).2 = some sampleData ∧
    get_latest_tavus_conversation
      (create_tavus_conversation sampleEnv (some "Acme") emptyS netOK).1.tavus_integrations =
      none := by decide

/-- C7 amended: GET /api/tavus/latest returns 404 exactly when the
session-integration registry is empty (in particular with zero sessions
ever created), and otherwise returns the data of the last inserted
registry entry; conversations that are not in the registry, such as
standalone-created ones or already-ended sessions, are not considered
even though they were created. -/
theorem spec_c7_latest_registry (r : Registry) :
    (get_latest_tavus_conversation r = none ↔ r = []) ∧
    (∀ pc t, lastEntry r = some (pc, t) →
      get_latest_tavus_conversation r = some (latestBody pc t)) := by
  constructor
  · constructor
    · intro h
      cases hl : lastEntry r with
      | none => exact (lastEntry_eq_none r).mp hl
      | some p =>
          unfold get_latest_tavus_conversation at h
          rw [hl] at h
          cases p
          simp at h
    · intro h
      subst h
      rfl
  · intro pc t h
    unfold get_latest_tavus_conversation
    rw [h]

theorem spec_c7_latest_registry_witness :
    get_latest_tavus_conversation [] = none ∧
    get_latest_tavus_conversation [("pc1", sampleT)] = some (latestBody "pc1" sampleT) :=
  ⟨(spec_c7_latest_registry []).1.mpr rfl,
   (spec_c7_latest_registry [("pc1", sampleT)]).2 "pc1" sampleT rfl⟩

/-- C8 counterexample: sampleS holds session pc1 in both pcs_map and
tavus_integrations; a successful POST /api/tavus/end/pc1 returns the
ended response, yet the connection map still retains the record for
pc1, because the handler deletes only from tavus_integrations (server.py
line 383) and never touches pcs_map.  So the registry does retain a
record for the session id after a successful explicit end. -/
theorem spec_c8_end_keeps_connection_counterexample :
    (end_tavus_conversation sampleS "pc1" netOK).2.1 = EndResp.ended "pc1" ∧
    (end_tavus_conversation sampleS "pc1" netOK).1.pcs_map "pc1" = some sampleConn := by
  decide

/-- C8 amended: an explicit end request for a registered session returns
the ended response and removes the session from the integration map
only, leaving the connection map unchanged; the transport closed event
is the path that removes the session from both maps. -/
theorem spec_c8_end_scope (s : ServerState) (pc : String) (t : TavusIntegration)
    (net : HttpResult) (h : lookupR s.tavus_integrations pc = some t) :
    (end_tavus_conversation s pc net).2.1 = EndResp.ended pc ∧
    lookupR (end_tavus_conversation s pc net).1.tavus_integrations pc = none ∧
    (end_tavus_conversation s pc net).1.pcs_map = s.pcs_map ∧
    (handle_disconnected s pc net).1.pcs_map pc = none ∧
    lookupR (handle_disconnected s pc net).1.tavus_integrations pc = none := by
  refine ⟨?_, ?_, ?_, ?_, ?_⟩
  · simp [end_tavus_conversation, stepEnd, h, lookupR_insertR]
  · simp [end_tavus_conversation, stepEnd, h, lookupR_insertR, lookupR_eraseR]
  · simp [end_tavus_conversation, stepEnd, h, lookupR_insertR]
  · unfold handle_disconnected
    rw [h]
    simp
  · unfold handle_disconnected
    rw [h]
    simp [lookupR_eraseR]

theorem spec_c8_end_scope_witness :
    (end_tavus_conversation sampleS "pc1" netOK).2.1 = EndResp.ended "pc1" ∧
    lookupR (end_tavus_conversation sampleS "pc1" netOK).1.tavus_integrations "pc1" = none ∧
    (end_tavus_conversation sampleS "pc1" netOK).1.pcs_map = sampleS.pcs_map ∧
    (handle_disconnected sampleS "pc1" netOK).1.pcs_map "pc1" = none ∧
    lookupR (handle_disconnected sampleS "pc1" netOK).1.tavus_integrations "pc1" = none :=
  spec_c8_end_scope sampleS "pc1" sampleT netOK (by decide)

/-- C9: an offer for a pc_id already present in pcs_map only
renegotiates: the server state is returned unchanged (same connection
record, no new session entry, integration registry untouched, latest
untouched), the answer carries the same pc_id, and no background task
is scheduled, hence no new integration or remote resource is created. -/
theorem spec_c9_offer_reuse (env : Env) (s : ServerState) (pc : String)
    (conn fresh : Conn) (h1 : s.pcs_map pc = some conn) (h2 : conn.pc_id = pc) :
    offer env s (some pc) fresh = (s, pc, []) ∧
    (offer env s (some pc) fresh).1.pcs_map pc = some conn ∧
    (offer env s (some pc) fresh).1.tavus_integrations = s.tavus_integrations := by
  have hmap : (fun k => if k = pc then some conn else s.pcs_map k) = s.pcs_map := by
    funext k
    by_cases hk : k = pc
    · rw [if_pos hk, hk, h1]
    · rw [if_neg hk]
  have hofr : offer env s (some pc) fresh = (s, pc, []) := by
    simp only [offer, h1, hmap, h2]
  refine ⟨hofr, ?_, ?_⟩
  · rw [hofr]
    exact h1
  · rw [hofr]

theorem spec_c9_offer_reuse_witness :
    offer sampleEnv sampleS (some "pc1") (Conn.mk "f" 1) = (sampleS, "pc1", []) ∧
    (offer sampleEnv sampleS (some "pc1") (Conn.mk "f" 1)).1.pcs_map "pc1" = some sampleConn ∧
    (offer sampleEnv sampleS (some "pc1") (Conn.mk "f" 1)).1.tavus_integrations =
      sampleS.tavus_integrations :=
  spec_c9_offer_reuse sampleEnv sampleS "pc1" sampleConn (Conn.mk "f" 1) (by decide) rfl

/-- An HTTP 429 response from the avatar provider on create. -/
def net429 : HttpResult := HttpResult.resp 429 sampleData "too-many-requests"

/-- C4, evaluated at the failing input (create fails with HTTP 429).
The negotiated answer is still returned by the offer handler (the
background task cannot affect it), nothing is registered, the warning
is logged and the integration keeps no conversation id — but the claim
that the subsequent connect and disconnect handling does not raise is
false: run_bot only assigns its local conversation_id inside the create
success branch, so after a failed create the closures
on_client_connected and on_client_disconnected read an unassigned free
variable and raise NameError. -/
theorem spec_c4_create_failure_bug :
    (offerNewPath sampleEnv emptyS sampleConn).2.1 = "pc1" ∧
    (run_bot_effects emptyS "pc1" emptyT net429).2.warned = true ∧
    (run_bot_effects emptyS "pc1" emptyT net429).2.tavus.conversation_id = none ∧
    (run_bot_effects emptyS "pc1" emptyT net429).1.tavus_integrations = [] ∧
    (run_bot_effects emptyS "pc1" emptyT net429).2.conversation_id_var = none ∧
    run_bot_on_client_connected
        (run_bot_effects emptyS "pc1" emptyT net429).2.conversation_id_var
        (run_bot_effects emptyS "pc1" emptyT net429).2.tavus netOK =
      Except.error "NameError: free variable conversation_id referenced before assignment" ∧
    run_bot_on_client_disconnected
        (run_bot_effects emptyS "pc1" emptyT net429).2.conversation_id_var
        (run_bot_effects emptyS "pc1" emptyT net429).2.tavus netOK =
      Except.error "NameError: free variable conversation_id referenced before assignment" :=
  ⟨rfl, rfl, rfl, rfl, rfl, rfl, rfl⟩

/-- C3 counterexample: two executions of POST /api/tavus/end/pc1
interleaved at the await of end_conversation (schedule A, B, A, B) both
pass the membership check; A then returns the ended response and B
reaches the del statement after the entry is gone, raising KeyError,
which escapes the handler as a 500 — not the 404 the claim requires for
an id no longer present, and a crash, which the claim excludes.  The
shared integration object makes the second await issue no DELETE, so
the delete count stays one. -/
theorem spec_c3_interleaved_end_counterexample :
    (runTwo "pc1" netOK netOK [true, false, true, false] [("pc1", sampleT)]).a =
      EndPhase.done (EndResp.ended "pc1") ∧
    (runTwo "pc1" netOK netOK [true, false, true, false] [("pc1", sampleT)]).b =
      EndPhase.done EndResp.keyError ∧
    (runTwo "pc1" netOK netOK [true, false, true, false] [("pc1", sampleT)]).deletes =
      ["conv_123"] := by
  decide

/-- C3 amended: for two executions of POST /api/tavus/end for the same
pc_id that do not interleave (the first runs to completion before the
second starts), at most one obtains the record and returns the ended
response, the other returns 404, and neither crashes; interleaved
executions can instead make the loser raise KeyError, as the
counterexample shows. -/
theorem spec_c3_sequential_end (r0 : Registry) (pc : String) (netA netB : HttpResult) :
    ((runTwo pc netA netB [true, true, false, false] r0).a =
        EndPhase.done (EndResp.ended pc) ∧
     (runTwo pc netA netB [true, true, false, false] r0).b =
        EndPhase.done EndResp.notFound) ∨
    ((runTwo pc netA netB [true, true, false, false] r0).a =
        EndPhase.done EndResp.notFound ∧
     (runTwo pc netA netB [true, true, false, false] r0).b =
        EndPhase.done EndResp.notFound) := by
  cases hl : lookupR r0 pc with
  | none =>
      right
      constructor <;> simp [runTwo, stepTwo, stepEnd, hl]
  | some t =>
      left
      constructor <;>
        simp [runTwo, stepTwo, stepEnd, hl, lookupR_insertR, lookupR_eraseR]

theorem stepEvent_standalone_frame (env : Env) (s : ServerState)
    (company : Option String) (net : HttpResult) :
    (stepEvent env s (Event.standaloneCreate company net)).1.tavus_integrations =
      s.tavus_integrations ∧
    (stepEvent env s (Event.standaloneCreate company net)).1.pcs_map = s.pcs_map ∧
    (stepEvent env s (Event.standaloneCreate company net)).2 = [] := by
  simp only [stepEvent, create_tavus_conversation]
  cases (create_conversation { mkIntegration env with company_context := company } net).result <;>
    simp

theorem stepEvent_no_delete (env : Env) (s : ServerState) (c : String) (e : Event)
    (hreg : noRegEntry c s.tavus_integrations) (hf : freshFor c e) :
    noRegEntry c (stepEvent env s e).1.tavus_integrations ∧ c ∉ (stepEvent env s e).2 := by
  cases e with
  | offerNew fresh net =>
      have hf2 : createdCid net ≠ some c := hf
      simp only [stepEvent, run_bot_effects]
      cases hres : (create_conversation (mkIntegration env) net).result with
      | none => exact ⟨hreg, by simp⟩
      | some d =>
          refine ⟨?_, by simp⟩
          intro p hp
          rcases mem_insertR _ _ _ p hp with he | hm
          · have hspec := create_conversation_result_some (mkIntegration env) net d hres
            have hcid : d.conversation_id ≠ some c := fun hcc => hf2 (hspec.1.trans hcc)
            rw [he]
            show ({ (create_conversation (mkIntegration env) net).state with
                      conversation_data := some d } : TavusIntegration).conversation_id ≠ some c
            simpa [hspec.2] using hcid
          · exact hreg p hm
  | offerReuse pc => exact ⟨hreg, by simp [stepEvent]⟩
  | standaloneCreate company net =>
      obtain ⟨h1, _h2, h3⟩ := stepEvent_standalone_frame env s company net
      exact ⟨by rw [h1]; exact hreg, by rw [h3]; simp⟩
  | endReq pc net =>
      cases hl : lookupR s.tavus_integrations pc with
      | none =>
          constructor
          · intro p hp
            simp only [stepEvent, end_tavus_conversation, stepEnd, hl] at hp
            exact hreg p hp
          · simp [stepEvent, end_tavus_conversation, stepEnd, hl]
      | some t =>
          have htc : t.conversation_id ≠ some c := hreg (pc, t) (lookupR_mem _ _ _ hl)
          constructor
          · intro p hp
            simp only [stepEvent, end_tavus_conversation, stepEnd, hl,
              lookupR_insertR, if_pos] at hp
            have hp2 := mem_eraseR _ _ _ hp
            rcases mem_insertR _ _ _ _ hp2 with he | hm
            · rw [he]
              show (end_conversation t net).state.conversation_id ≠ some c
              cases hcid : t.conversation_id <;> cases net <;>
                simp [end_conversation, hcid]
            · exact hreg p hm
          · cases hcid : t.conversation_id with
            | none =>
                simp [stepEvent, end_tavus_conversation, stepEnd, hl, end_conversation,
                  hcid, lookupR_insertR]
            | some cid =>
                have hne : ¬ c = cid := fun hcc => htc (by rw [hcid, hcc])
                cases net <;>
                  simp [stepEvent, end_tavus_conversation, stepEnd, hl, end_conversation,
                    hcid, lookupR_insertR, hne]
  | closedEvt pc net =>
      cases hl : lookupR s.tavus_integrations pc with
      | none =>
          constructor
          · intro p hp
            simp only [stepEvent, handle_disconnected, hl] at hp
            exact hreg p hp
          · simp [stepEvent, handle_disconnected, hl]
      | some t =>
          constructor
          · intro p hp
            simp only [stepEvent, handle_disconnected, hl] at hp
            exact hreg p (mem_eraseR _ _ _ hp)
          · cases hcid : t.conversation_id with
            | none => simp [stepEvent, handle_disconnected, hl, end_conversation, hcid]
            | some cid =>
                have hne : ¬ c = cid := fun hcc =>
                  (hreg (pc, t) (lookupR_mem _ _ _ hl)) (by rw [hcid, hcc])
                cases net <;>
                  simp [stepEvent, handle_disconnected, hl, end_conversation, hcid, hne]

theorem runTrace_no_delete (env : Env) (es : List Event) :
    ∀ s c, noRegEntry c s.tavus_integrations → (∀ e ∈ es, freshFor c e) →
      noRegEntry c (runTrace env s es).1.tavus_integrations ∧ c ∉ (runTrace env s es).2 := by
  induction es with
  | nil =>
      intro s c hreg _hf
      exact ⟨hreg, by simp [runTrace]⟩
  | cons e es ih =>
      intro s c hreg hf
      have hstep := stepEvent_no_delete env s c e hreg (hf e (List.mem_cons_self e es))
      have hrest := ih (stepEvent env s e).1 c hstep.1
        (fun x hx => hf x (List.mem_cons_of_mem e hx))
      refine ⟨hrest.1, ?_⟩
      simp only [runTrace, List.mem_append]
      rintro (h | h)
      · exact hstep.2 h
      · exact hrest.2 h

theorem noRegEntry_listing (c : String) (r : Registry) (nets : String → HttpResult)
    (h : noRegEntry c r) :
    ∀ a ∈ get_active_conversations r nets, a.conversation_id ≠ some c := by
  intro a ha
  simp only [get_active_conversations, List.mem_map] at ha
  obtain ⟨p, hp, rfl⟩ := ha
  exact h p hp

/-- C10: a conversation created through the standalone endpoints is
never entered into the session registries (the standalone handler
leaves both maps unchanged and issues no DELETE), and along any event
trace in which no per-session create returns that conversation id
(provider ids are fresh), the program never issues a DELETE for it and
never returns it among the active conversations. -/
theorem spec_c10_standalone_untracked (env : Env) (es : List Event) (s : ServerState)
    (c : String) (nets : String → HttpResult)
    (hreg : noRegEntry c s.tavus_integrations)
    (hf : ∀ e ∈ es, freshFor c e) :
    (∀ company net s2,
      (stepEvent env s2 (Event.standaloneCreate company net)).1.tavus_integrations =
        s2.tavus_integrations ∧
      (stepEvent env s2 (Event.standaloneCreate company net)).1.pcs_map = s2.pcs_map ∧
      (stepEvent env s2 (Event.standaloneCreate company net)).2 = []) ∧
    noRegEntry c (runTrace env s es).1.tavus_integrations ∧
    c ∉ (runTrace env s es).2 ∧
    ∀ a ∈ get_active_conversations (runTrace env s es).1.tavus_integrations nets,
      a.conversation_id ≠ some c := by
  have h1 := runTrace_no_delete env es s c hreg hf
  exact ⟨fun company net s2 => stepEvent_standalone_frame env s2 company net,
         h1.1, h1.2, noRegEntry_listing c _ nets h1.1⟩

/-- A successful standalone create response with the conversation id
conv_555. -/
def net555 : HttpResult :=
  HttpResult.resp 200
    { conversation_id := some "conv_555", conversation_url := some "u5", raw := "raw5" }
    "ok"

/-- A sample event trace: a standalone create for conv_555, then a full
session lifecycle (offer, explicit end, transport closed). -/
def sampleTrace : List Event :=
  [Event.standaloneCreate (some "Acme") net555,
   Event.offerNew sampleConn netOK,
   Event.endReq "pc1" netOK,
   Event.closedEvt "pc1" netOK]

theorem spec_c10_standalone_untracked_witness :
    "conv_555" ∉ (runTrace sampleEnv emptyS sampleTrace).2 :=
  (spec_c10_standalone_untracked sampleEnv sampleTrace emptyS "conv_555" (fun _ => netOK)
    (by intro p hp; simp [emptyS] at hp)
    (by intro e he; fin_cases he <;> simp [freshFor, createdCid, netOK, net555, sampleData])).2.2.1
